import Mathlib

/-
Verification of the trading-signal component of the GDP-dashboard Streamlit
app (src/streamlit_app.py): the candle classifier `check_conditions`, the
append-only signal log written by `record_signal`, and the Check Signal
button handler built on `fetch_candle_data`.

Modelling choices:
* a fetched window (pandas DataFrame of OHLC rows) is a `List Row`;
* prices are rationals (ℚ): Python compares floats with exact `==`, and the
  claims are about exact-equality branching, which ℚ models faithfully;
* labels are plain strings, as in the source;
* the SQLite table `signals (timestamp TEXT, signal TEXT)` is a list of rows
  carrying SQLite's implicit rowid (monotonically assigned on insert, since
  the program never deletes);
* `datetime.now()` is an explicit external input, a `DateTime` record, and
  `strftime` with format `%Y-%m-%d %H:%M:%S` is embedded as `strftime_now`.
-/

/-- One OHLC row of the fetched candle window (one row of the DataFrame
returned by `fetch_candle_data`). Field names follow the local variables of
`check_conditions`. -/
structure Row where
  open_price : ℚ
  high_price : ℚ
  low_price : ℚ
  close_price : ℚ
deriving DecidableEq

/-- The cascade of price conditions in `check_conditions`
(src/streamlit_app.py lines 110-123), after the four price extractions:
`o` is the first row's open, `h` its high, `l` its low, and `pc` the last
row's close ("previous close"). -/
def classify_prices (o h l pc : ℚ) : String :=
  if o = l ∧ pc = o then "BUY"
  else if o = l then "BUY"
  else if pc = h then "SELL"
  else if o = h then "SELL"
  else if pc = o ∧ o = h then "SELL"
  else if l = pc then "BUY"
  else "HOLD"

/-- `check_conditions(df)` (src/streamlit_app.py lines 100-123): empty frame
means "No Data"; otherwise open/high/low come from the first row
(`iloc[0]`) and the previous close from the last row (`iloc[-1]`). -/
def check_conditions (df : List Row) : String :=
  match df with
  | [] => "No Data"
  | r :: rs =>
      classify_prices r.open_price r.high_price r.low_price
        ((r :: rs).getLast (List.cons_ne_nil r rs)).close_price

/-- The same cascade with the fifth branch (spec rule 6:
`pc = o ∧ o = h → SELL`) deleted. -/
def classify_prices_norule6 (o h l pc : ℚ) : String :=
  if o = l ∧ pc = o then "BUY"
  else if o = l then "BUY"
  else if pc = h then "SELL"
  else if o = h then "SELL"
  else if l = pc then "BUY"
  else "HOLD"

/-- `check_conditions` with the rule-6 branch deleted. -/
def check_conditions_norule6 (df : List Row) : String :=
  match df with
  | [] => "No Data"
  | r :: rs =>
      classify_prices_norule6 r.open_price r.high_price r.low_price
        ((r :: rs).getLast (List.cons_ne_nil r rs)).close_price

/-- Spec-side rule table (spec section 4.1, rules 2-7): each rule is a
decidable condition paired with its label, listed in the spec's priority
order. Rule 1 (no data) and rule 8 (the HOLD default) are handled by
`check_conditions_spec`. -/
def spec_rules (o h l pc : ℚ) : List (Bool × String) :=
  [ (decide (o = l) && decide (pc = o), "BUY"),
    (decide (o = l), "BUY"),
    (decide (pc = h), "SELL"),
    (decide (o = h), "SELL"),
    (decide (pc = o) && decide (o = h), "SELL"),
    (decide (l = pc), "BUY") ]

/-- First-match evaluation of a rule table: the first rule whose condition
holds determines the result; the default applies when none matches. -/
def firstMatch (rules : List (Bool × String)) (dflt : String) : String :=
  match rules with
  | [] => dflt
  | (c, s) :: rest => if c then s else firstMatch rest dflt

/-- Spec-side classifier (spec section 4.1): rule 1 sends an empty window to
"No Data"; otherwise the eight rules are evaluated in strict priority order
with the first match winning and rule 8 defaulting to HOLD. -/
def check_conditions_spec (df : List Row) : String :=
  match df with
  | [] => "No Data"
  | r :: rs =>
      firstMatch
        (spec_rules r.open_price r.high_price r.low_price
          ((r :: rs).getLast (List.cons_ne_nil r rs)).close_price)
        "HOLD"

/-- Every price cascade result is one of BUY, SELL, HOLD. -/
lemma classify_prices_mem (o h l pc : ℚ) :
    classify_prices o h l pc = "BUY" ∨ classify_prices o h l pc = "SELL" ∨
      classify_prices o h l pc = "HOLD" := by
  unfold classify_prices
  split_ifs <;> simp

/-- Every classifier result is one of the four labels. -/
lemma check_conditions_mem (df : List Row) :
    check_conditions df = "BUY" ∨ check_conditions df = "SELL" ∨
      check_conditions df = "HOLD" ∨ check_conditions df = "No Data" := by
  match df with
  | [] => simp [check_conditions]
  | r :: rs =>
      rcases classify_prices_mem r.open_price r.high_price r.low_price
        ((r :: rs).getLast (List.cons_ne_nil r rs)).close_price with h | h | h <;>
        simp [check_conditions, h]

/-- Deleting the rule-6 branch never changes the cascade's answer. -/
lemma classify_prices_norule6_eq (o h l pc : ℚ) :
    classify_prices_norule6 o h l pc = classify_prices o h l pc := by
  unfold classify_prices classify_prices_norule6
  split_ifs <;> try rfl
  all_goals
    exact absurd ((‹pc = o ∧ o = h›).1.trans (‹pc = o ∧ o = h›).2) ‹¬pc = h›

/-- C2: Classifier rule 6 (previous-close = open and open = high, giving
SELL) is unreachable: deleting that branch changes no classification result
on any window, and whenever its condition holds on a non-empty window, the
conditions of the earlier rule 4 (previous-close = high) and rule 5
(open = high) already hold. -/
theorem rule6_unreachable :
    (∀ df : List Row, check_conditions_norule6 df = check_conditions df) ∧
    ∀ (r : Row) (rs : List Row),
      ((r :: rs).getLast (List.cons_ne_nil r rs)).close_price = r.open_price ∧
          r.open_price = r.high_price →
        ((r :: rs).getLast (List.cons_ne_nil r rs)).close_price = r.high_price ∧
          r.open_price = r.high_price := by
  constructor
  · intro df
    match df with
    | [] => rfl
    | r :: rs =>
        simp only [check_conditions, check_conditions_norule6,
          classify_prices_norule6_eq]
  · intro r rs h
    exact ⟨h.1.trans h.2, h.2⟩

/-- Witness for `rule6_unreachable` at a concrete window whose last close
equals the first open and whose open equals the high. -/
theorem rule6_unreachable_witness :
    check_conditions_norule6 [⟨5, 5, 3, 5⟩] = check_conditions [⟨5, 5, 3, 5⟩] ∧
      (([(⟨5, 5, 3, 5⟩ : Row)].getLast (List.cons_ne_nil _ _)).close_price =
          (⟨5, 5, 3, 5⟩ : Row).open_price ∧
        (⟨5, 5, 3, 5⟩ : Row).open_price = (⟨5, 5, 3, 5⟩ : Row).high_price →
      ([(⟨5, 5, 3, 5⟩ : Row)].getLast (List.cons_ne_nil _ _)).close_price =
          (⟨5, 5, 3, 5⟩ : Row).high_price ∧
        (⟨5, 5, 3, 5⟩ : Row).open_price = (⟨5, 5, 3, 5⟩ : Row).high_price) :=
  ⟨rule6_unreachable.1 [⟨5, 5, 3, 5⟩], rule6_unreachable.2 ⟨5, 5, 3, 5⟩ []⟩

/-- C3: On every input (a window, empty or not) the classifier returns
exactly one label from BUY, SELL, HOLD, "No Data", and it coincides with
the spec's eight rules evaluated in strict priority order with the first
match winning. -/
theorem classifier_total_first_match :
    ∀ df : List Row,
      (check_conditions df = "BUY" ∨ check_conditions df = "SELL" ∨
        check_conditions df = "HOLD" ∨ check_conditions df = "No Data") ∧
      check_conditions df = check_conditions_spec df := by
  intro df
  refine ⟨check_conditions_mem df, ?_⟩
  match df with
  | [] => rfl
  | r :: rs =>
      simp only [check_conditions, check_conditions_spec, spec_rules,
        firstMatch, classify_prices]
      split_ifs <;> simp_all

/-- C4: any window whose first row has open = low and whose previous close
(last row's close) equals the open classifies as BUY. -/
theorem open_low_prevclose_open_buy (r : Row) (rs : List Row)
    (hol : r.open_price = r.low_price)
    (hpc : ((r :: rs).getLast (List.cons_ne_nil r rs)).close_price =
      r.open_price) :
    check_conditions (r :: rs) = "BUY" := by
  simp [check_conditions, classify_prices, hol, hpc]

/-- Witness for `open_low_prevclose_open_buy`: the single candle
(open 100, high 105, low 100, close 100). -/
theorem open_low_prevclose_open_buy_witness :
    check_conditions [⟨100, 105, 100, 100⟩] = "BUY" :=
  open_low_prevclose_open_buy ⟨100, 105, 100, 100⟩ [] rfl rfl

/-- C5: any window whose previous close (last row's close) equals the first
row's high while the first row's open differs from its low classifies as
SELL. -/
theorem prevclose_high_sell (r : Row) (rs : List Row)
    (hph : ((r :: rs).getLast (List.cons_ne_nil r rs)).close_price =
      r.high_price)
    (hol : r.open_price ≠ r.low_price) :
    check_conditions (r :: rs) = "SELL" := by
  simp [check_conditions, classify_prices, hph, hol]

/-- Witness for `prevclose_high_sell`: the single candle
(open 100, high 100, low 95, close 100). -/
theorem prevclose_high_sell_witness :
    check_conditions [⟨100, 100, 95, 100⟩] = "SELL" :=
  prevclose_high_sell ⟨100, 100, 95, 100⟩ [] rfl (by norm_num)

/-- C6: the classifier on an empty window (no candle data) returns
"No Data". -/
theorem no_data_label : check_conditions [] = "No Data" := rfl

/-- C7: whenever no equality rule matches (open differs from low, previous
close from high, open from high, low from previous close) the classifier
returns HOLD; in particular the window with first row
(open 100, high 105, low 95, close 102) and previous close 101 is HOLD. -/
theorem no_rule_matches_hold :
    (∀ (r : Row) (rs : List Row),
      r.open_price ≠ r.low_price →
      ((r :: rs).getLast (List.cons_ne_nil r rs)).close_price ≠
        r.high_price →
      r.open_price ≠ r.high_price →
      r.low_price ≠ ((r :: rs).getLast (List.cons_ne_nil r rs)).close_price →
      check_conditions (r :: rs) = "HOLD") ∧
    check_conditions [⟨100, 105, 95, 102⟩, ⟨100, 105, 95, 101⟩] = "HOLD" := by
  constructor
  · intro r rs h1 h2 h3 h4
    simp [check_conditions, classify_prices, h1, h2, h3, h4]
  · norm_num [check_conditions, classify_prices]

/-- Witness for `no_rule_matches_hold`: its general part applied to the
spec's HOLD example, previous close 101. -/
theorem no_rule_matches_hold_witness :
    check_conditions [⟨100, 105, 95, 102⟩, ⟨100, 105, 95, 101⟩] = "HOLD" :=
  no_rule_matches_hold.1 ⟨100, 105, 95, 102⟩ [⟨100, 105, 95, 101⟩]
    (by norm_num) (by norm_num) (by norm_num) (by norm_num)

/-- A local wall-clock instant as read by `datetime.now()`, broken into the
six components that the `%Y-%m-%d %H:%M:%S` format prints. -/
structure DateTime where
  year : Nat
  month : Nat
  day : Nat
  hour : Nat
  minute : Nat
  second : Nat
deriving DecidableEq

/-- The decimal digit character for `n % 10`. -/
def digitOf (n : Nat) : Char :=
  match n % 10 with
  | 0 => '0'
  | 1 => '1'
  | 2 => '2'
  | 3 => '3'
  | 4 => '4'
  | 5 => '5'
  | 6 => '6'
  | 7 => '7'
  | 8 => '8'
  | _ => '9'

/-- Two-digit zero-padded decimal rendering (the strftime fields
`%m %d %H %M %S`). -/
def pad2 (n : Nat) : String := String.mk [digitOf (n / 10), digitOf n]

/-- Four-digit zero-padded decimal rendering (the strftime field `%Y`). -/
def pad4 (n : Nat) : String :=
  String.mk [digitOf (n / 1000), digitOf (n / 100), digitOf (n / 10), digitOf n]

/-- `datetime.now().strftime("%Y-%m-%d %H:%M:%S")` applied to an instant. -/
def strftime_now (d : DateTime) : String :=
  pad4 d.year ++ "-" ++ pad2 d.month ++ "-" ++ pad2 d.day ++ " " ++
    pad2 d.hour ++ ":" ++ pad2 d.minute ++ ":" ++ pad2 d.second

/-- Character-level shape of a `YYYY-MM-DD HH:MM:SS` string: nineteen
characters, digits in the date and time positions, dashes, a space and
colons as separators. -/
def tsPattern : List Char → Bool
  | [y3, y2, y1, y0, s1, mo1, mo0, s2, da1, da0, s3,
     h1, h0, s4, mi1, mi0, s5, se1, se0] =>
      y3.isDigit && y2.isDigit && y1.isDigit && y0.isDigit && (s1 == '-') &&
      mo1.isDigit && mo0.isDigit && (s2 == '-') &&
      da1.isDigit && da0.isDigit && (s3 == ' ') &&
      h1.isDigit && h0.isDigit && (s4 == ':') &&
      mi1.isDigit && mi0.isDigit && (s5 == ':') &&
      se1.isDigit && se0.isDigit
  | _ => false

/-- A string is a local-time second-precision timestamp when its characters
match `tsPattern`. -/
def isTimestampFormat (s : String) : Bool := tsPattern s.data

/-- `digitOf` always yields a decimal digit character. -/
lemma digitOf_isDigit (n : Nat) : (digitOf n).isDigit = true := by
  unfold digitOf
  split <;> rfl

/-- Every strftime-rendered instant matches the timestamp shape. -/
lemma isTimestampFormat_strftime_now (d : DateTime) :
    isTimestampFormat (strftime_now d) = true := by
  have hdata : (strftime_now d).data =
      [digitOf (d.year / 1000), digitOf (d.year / 100), digitOf (d.year / 10),
       digitOf d.year, '-', digitOf (d.month / 10), digitOf d.month, '-',
       digitOf (d.day / 10), digitOf d.day, ' ',
       digitOf (d.hour / 10), digitOf d.hour, ':',
       digitOf (d.minute / 10), digitOf d.minute, ':',
       digitOf (d.second / 10), digitOf d.second] := by
    simp [strftime_now, pad4, pad2, String.data_append]
  simp [isTimestampFormat, hdata, tsPattern, digitOf_isDigit]

/-- One row of the SQLite table
`signals (timestamp TEXT, signal TEXT)`, together with SQLite's implicit
integer rowid (assigned 1, 2, 3, ... as rows are inserted, since this
program never deletes). -/
structure SignalRow where
  rowid : Nat
  timestamp : String
  signal : String
deriving DecidableEq

/-- `record_signal(signal)` (src/streamlit_app.py lines 125-132): opens the
store, creates the table if absent, inserts one row
(now-strftime, signal) and commits. On the list model this appends one row
with the next rowid. -/
def record_signal (log : List SignalRow) (now : DateTime) (signal : String) :
    List SignalRow :=
  log ++ [⟨log.length + 1, strftime_now now, signal⟩]

/-- The Signal History read (src/streamlit_app.py lines 154-158):
`SELECT * FROM signals` returns all rows in rowid (= insertion) order. -/
def list_signals (log : List SignalRow) : List SignalRow := log

/-- Well-formed table: the i-th stored row carries rowid i+1, as SQLite
assigns them under insert-only use. -/
def WfLog (log : List SignalRow) : Prop :=
  ∀ i : Fin log.length, (log.get i).rowid = i.val + 1

/-- A sequence of Check Signal actions, each contributing one append, run
from the empty table. -/
def run_appends (ops : List (DateTime × String)) : List SignalRow :=
  ops.foldl (fun log p => record_signal log p.1 p.2) []

/-- Each append grows the table by exactly one row. -/
lemma record_signal_length (log : List SignalRow) (now : DateTime)
    (s : String) : (record_signal log now s).length = log.length + 1 := by
  simp [record_signal]

/-- Folding appends over any starting table adds one row per action. -/
lemma foldl_record_signal_length (ops : List (DateTime × String))
    (log : List SignalRow) :
    (ops.foldl (fun acc p => record_signal acc p.1 p.2) log).length =
      log.length + ops.length := by
  induction ops generalizing log with
  | nil => simp
  | cons p rest ih =>
      simp [List.foldl_cons, ih, record_signal_length]
      omega

/-- C8: appending a signal to a well-formed table and then listing yields
exactly the old rows followed by the new record; the new record occurs
exactly once (at the position after all previously appended rows), the
table stays well-formed, and N sequential appends from the empty table
leave exactly N rows. -/
theorem append_then_list (log : List SignalRow) (now : DateTime) (s : String)
    (hwf : WfLog log) :
    list_signals (record_signal log now s) =
        log ++ [⟨log.length + 1, strftime_now now, s⟩] ∧
    (list_signals (record_signal log now s)).count
        ⟨log.length + 1, strftime_now now, s⟩ = 1 ∧
    WfLog (record_signal log now s) ∧
    ∀ ops : List (DateTime × String),
      (list_signals (run_appends ops)).length = ops.length := by
  have hnew : (⟨log.length + 1, strftime_now now, s⟩ : SignalRow) ∉ log := by
    intro hmem
    obtain ⟨i, hi⟩ := List.get_of_mem hmem
    have hrow := hwf i
    rw [hi] at hrow
    simp at hrow
    have : i.val < log.length := i.isLt
    omega
  refine ⟨rfl, ?_, ?_, ?_⟩
  · simp [list_signals, record_signal, List.count_append,
      List.count_eq_zero_of_not_mem hnew]
  · intro i
    rcases Nat.lt_or_ge i.val log.length with hlt | hge
    · have h3 := hwf ⟨i.val, hlt⟩
      simp only [List.get_eq_getElem] at h3 ⊢
      simp only [record_signal]
      rw [List.getElem_append_left hlt]
      exact h3
    · have hi : i.val < log.length + 1 := by
        have h4 := i.isLt
        simpa [record_signal] using h4
      have hv : i.val = log.length := by omega
      simp only [List.get_eq_getElem, record_signal]
      rw [List.getElem_append_right (by omega)]
      simp [hv]
  · intro ops
    simpa [list_signals, run_appends] using
      foldl_record_signal_length ops []

/-- Witness for `append_then_list`: one append of "BUY" to the empty table
at a concrete instant. -/
theorem append_then_list_witness :
    list_signals (record_signal [] ⟨2024, 5, 6, 7, 8, 9⟩ "BUY") =
        [⟨1, strftime_now ⟨2024, 5, 6, 7, 8, 9⟩, "BUY"⟩] ∧
    (list_signals (record_signal [] ⟨2024, 5, 6, 7, 8, 9⟩ "BUY")).count
        ⟨1, strftime_now ⟨2024, 5, 6, 7, 8, 9⟩, "BUY"⟩ = 1 ∧
    WfLog (record_signal [] ⟨2024, 5, 6, 7, 8, 9⟩ "BUY") ∧
    ∀ ops : List (DateTime × String),
      (list_signals (run_appends ops)).length = ops.length := by
  have h := append_then_list [] ⟨2024, 5, 6, 7, 8, 9⟩ "BUY" (fun i => i.elim0)
  simpa using h

/-- The signal-log states reachable in this program: the table starts empty
(created by `CREATE TABLE IF NOT EXISTS`) and grows only by
`record_signal`, whose signal argument is always a `check_conditions`
result stamped with the current time. -/
inductive ReachableLog : List SignalRow → Prop
  | empty : ReachableLog []
  | step (log : List SignalRow) (now : DateTime) (df : List Row) :
      ReachableLog log →
      ReachableLog (record_signal log now (check_conditions df))

/-- C9: in every reachable log state, every stored record is a pair of a
`YYYY-MM-DD HH:MM:SS` timestamp string and a label from BUY, SELL, HOLD,
"No Data"; and the only mutating operation, `record_signal`, only ever adds
rows at the end — it never updates or deletes an existing record. -/
theorem signal_log_invariant (log : List SignalRow)
    (hreach : ReachableLog log) :
    (∀ r ∈ log, isTimestampFormat r.timestamp = true ∧
      (r.signal = "BUY" ∨ r.signal = "SELL" ∨ r.signal = "HOLD" ∨
        r.signal = "No Data")) ∧
    ∀ (before : List SignalRow) (now : DateTime) (s : String),
      ∃ added, record_signal before now s = before ++ added := by
  constructor
  · induction hreach with
    | empty => intro r hr; cases hr
    | step log now df hlog ih =>
        intro r hr
        rcases List.mem_append.mp hr with hold | hnewr
        · exact ih r hold
        · have hr2 : r = ⟨log.length + 1, strftime_now now,
              check_conditions df⟩ := by simpa using hnewr
          subst hr2
          exact ⟨isTimestampFormat_strftime_now now, check_conditions_mem df⟩
  · intro before now s
    exact ⟨[⟨before.length + 1, strftime_now now, s⟩], rfl⟩

/-- Witness for `signal_log_invariant`: the log reached by one Check Signal
action on an empty fetch at a concrete instant. -/
theorem signal_log_invariant_witness :
    (∀ r ∈ record_signal [] ⟨2024, 1, 2, 3, 4, 5⟩ (check_conditions []),
      isTimestampFormat r.timestamp = true ∧
      (r.signal = "BUY" ∨ r.signal = "SELL" ∨ r.signal = "HOLD" ∨
        r.signal = "No Data")) ∧
    ∀ (before : List SignalRow) (now : DateTime) (s : String),
      ∃ added, record_signal before now s = before ++ added :=
  signal_log_invariant _
    (ReachableLog.step [] ⟨2024, 1, 2, 3, 4, 5⟩ [] ReachableLog.empty)

/-- C10: the classifier reads only the first row's open, high and low and
the last row's close: two non-empty windows agreeing on those four values
classify identically, whatever their other contents. -/
theorem classifier_depends_on_four_values (r1 r2 : Row)
    (rs1 rs2 : List Row)
    (ho : r1.open_price = r2.open_price)
    (hh : r1.high_price = r2.high_price)
    (hl : r1.low_price = r2.low_price)
    (hc : ((r1 :: rs1).getLast (List.cons_ne_nil r1 rs1)).close_price =
      ((r2 :: rs2).getLast (List.cons_ne_nil r2 rs2)).close_price) :
    check_conditions (r1 :: rs1) = check_conditions (r2 :: rs2) := by
  simp only [check_conditions]
  rw [ho, hh, hl, hc]

/-- Witness for `classifier_depends_on_four_values`: a one-row window and a
two-row window agreeing on the four read values but nowhere else. -/
theorem classifier_depends_on_four_values_witness :
    (⟨1, 2, 3, 9⟩ : Row).open_price = (⟨1, 2, 3, 7⟩ : Row).open_price ∧
    check_conditions [⟨1, 2, 3, 9⟩] =
      check_conditions [⟨1, 2, 3, 7⟩, ⟨4, 5, 6, 9⟩] :=
  ⟨rfl, classifier_depends_on_four_values ⟨1, 2, 3, 9⟩ ⟨1, 2, 3, 7⟩ []
    [⟨4, 5, 6, 9⟩] rfl rfl rfl rfl⟩

/-- The outcome of the candle fetch as seen by the handler:
`fetch_candle_data` (src/streamlit_app.py lines 86-98) either returns the
fetched rows, or — when the underlying call raises — shows
"Error fetching candle data: ..." via `st.error` and returns an empty
frame. The returned pair is (error messages shown, resulting frame). -/
def fetch_candle_data (result : Except String (List Row)) :
    List String × List Row :=
  match result with
  | Except.ok rows => ([], rows)
  | Except.error e => (["Error fetching candle data: " ++ e], [])

/-- The user-visible state the Check Signal handler touches: the signal
table and the messages shown so far. -/
structure AppState where
  log : List SignalRow
  messages : List String
deriving DecidableEq

/-- The store side of `record_signal` (src/streamlit_app.py lines
125-132): the sqlite connect/execute/commit calls run with no try/except,
so when the store is unavailable the exception propagates before
`conn.commit()` and nothing is persisted; on an available store the insert
commits as modelled by `record_signal`. -/
def record_signal_store (store : Except String Unit)
    (log : List SignalRow) (now : DateTime) (signal : String) :
    Except String (List SignalRow) :=
  match store with
  | Except.ok _ => Except.ok (record_signal log now signal)
  | Except.error e => Except.error e

/-- The Check Signal button handler (src/streamlit_app.py lines 146-151):
fetch the candle window, classify it, record the signal, then show
"Signal: ..." — unconditionally, whether or not the fetch failed. A store
error escapes `record_signal` uncaught, so the action aborts with the log
unchanged and the exception rendered by the UI runtime instead of the
"Signal: ..." message. -/
def check_signal (st : AppState) (fetch_result : Except String (List Row))
    (store : Except String Unit) (now : DateTime) : AppState :=
  let fr := fetch_candle_data fetch_result
  let signal := check_conditions fr.2
  match record_signal_store store st.log now signal with
  | Except.ok newlog =>
      { log := newlog,
        messages := st.messages ++ fr.1 ++ ["Signal: " ++ signal] }
  | Except.error e =>
      { log := st.log, messages := st.messages ++ fr.1 ++ ["Error: " ++ e] }

/-- C1 counterexample: starting from an empty log, a failing fetch (with
the store available) still appends a record: the handler classifies the
empty frame as "No Data" and commits that row, so the log is no longer
empty. -/
theorem fetch_failure_still_records :
    (check_signal ⟨[], []⟩ (Except.error "boom") (Except.ok ())
        ⟨2024, 1, 2, 3, 4, 5⟩).log ≠ [] ∧
    (check_signal ⟨[], []⟩ (Except.error "boom") (Except.ok ())
        ⟨2024, 1, 2, 3, 4, 5⟩).log =
      [⟨1, "2024-01-02 03:04:05", "No Data"⟩] := by
  constructor
  · simp [check_signal, record_signal_store, record_signal]
  · rfl

/-- C1 amended: when the candle fetch fails (store available), the failure
is surfaced as a user-visible "Error fetching candle data" message, but
the handler still classifies the resulting empty frame — obtaining
"No Data" — and appends exactly one "No Data" record to the signal log
before showing "Signal: No Data"; when instead the log store fails, the
failure is surfaced as a user-visible error and the action aborts with
nothing committed to the log, whatever the fetch returned. -/
theorem external_failure_behavior (st : AppState) (e : String)
    (now : DateTime) :
    (check_signal st (Except.error e) (Except.ok ()) now =
      { log := st.log ++ [⟨st.log.length + 1, strftime_now now, "No Data"⟩],
        messages := st.messages ++
          ["Error fetching candle data: " ++ e, "Signal: No Data"] }) ∧
    ∀ fetch_result : Except String (List Row),
      (check_signal st fetch_result (Except.error e) now).log = st.log ∧
      "Error: " ++ e ∈
        (check_signal st fetch_result (Except.error e) now).messages := by
  refine ⟨?_, ?_⟩
  · simp [check_signal, fetch_candle_data, record_signal_store,
      check_conditions, record_signal]
  · intro fetch_result
    cases fetch_result <;>
      simp [check_signal, fetch_candle_data, record_signal_store]
